import Mathlib

/-!
Verification development for the bun:sqlite Prisma driver adapter.

The adapter's transaction controller (`src/adapter.ts`) is embedded as an
explicit state machine; the column-type resolution and row marshalling
pipeline (`src/conversion.ts`, whose implementation is absent from the
sources and is modelled from the specification) is embedded as executable
functions over an explicit value datatype.
-/

namespace BunSQLite

/-- The logical column types of the adapter (LogicalColumnType). -/
inductive ColumnType where
  | int32
  | int64
  | float
  | double
  | numeric
  | text
  | boolean
  | datetime
  | bytes
  | json
  | unknownNumber
deriving DecidableEq, Repr

/-- Raw engine values as surfaced by the bun:sqlite binding: null, numbers
(integral JS numbers and fractional reals are separated), text, blobs, and
64-bit integers (JS bigint). -/
inductive Value where
  | null
  | num (n : Int)
  | real (q : ℚ)
  | text (s : String)
  | blob (bs : List Nat)
  | bigint (i : Int)
deriving DecidableEq, Repr

/-- Wire-ready values produced by the row marshaller. -/
inductive MValue where
  | null
  | int (i : Int)
  | real (q : ℚ)
  | str (s : String)
  | bytes (bs : List Nat)
deriving DecidableEq, Repr

/-- Structured errors surfaced by the adapter (DriverAdapterError causes).
Only the kinds the transaction controller distinguishes are modelled;
engine-native failures carry their original message. -/
inductive AdapterError where
  | transactionAlreadyClosed (cause : String)
  | invalidIsolationLevel (level : String)
  | translated (originalMessage : String)
deriving DecidableEq, Repr

/-- Modelled from the spec: the error translator of `src/errors.ts`
(implementation absent from the sources) maps an engine-native failure to a
structured error; the transaction claims only require that the translated
error carries the native diagnostics, so it is modelled as the tagged
original message. -/
def convertDriverError (native : String) : AdapterError :=
  .translated native

/-- ASCII uppercasing of a character, as performed by JS toUpperCase on the
SQL keywords the adapter compares against. -/
def asciiUpper (c : Char) : Char :=
  if 'a' ≤ c ∧ c ≤ 'z' then Char.ofNat (c.toNat - 32) else c

/-- JS String.prototype.toUpperCase over the characters of a string. -/
def jsToUpper (cs : List Char) : List Char :=
  cs.map asciiUpper

/-- JS whitespace as far as SQL text is concerned. -/
def isJsSpace (c : Char) : Bool :=
  c = ' ' ∨ c = '\t' ∨ c = '\n' ∨ c = '\r'

/-- JS String.prototype.trim over the characters of a string. -/
def jsTrim (cs : List Char) : List Char :=
  ((cs.dropWhile isJsSpace).reverse.dropWhile isJsSpace).reverse

/-- The `query.sql.trim().toUpperCase()` normalization performed by
BunSQLiteTransaction.executeRaw before checking for COMMIT/ROLLBACK. -/
def normalizeSql (sql : String) : List Char :=
  jsToUpper (jsTrim sql.data)

/-- Remove a parenthesized length/precision specifier from a declared type,
e.g. VARCHAR(255) becomes VARCHAR and DECIMAL(10,2) becomes DECIMAL. -/
def stripParens (cs : List Char) : List Char :=
  (cs.takeWhile (· ≠ '(')) ++ ((cs.dropWhile (· ≠ ')')).drop 1)

/-- Split off a trailing UNSIGNED qualifier, remembering its presence. -/
def splitUnsigned (cs : List Char) : List Char × Bool :=
  if (" UNSIGNED".data).isSuffixOf cs then (cs.take (cs.length - 9), true)
  else (cs, false)

/-- Modelled from the spec: the declared-type resolver of
`src/conversion.ts` (implementation absent from the sources).
Case-insensitive; strips length/precision specifiers and the UNSIGNED
qualifier (remembering its presence); maps the recognized names to logical
column types, with the bare INTEGER UNSIGNED / INT UNSIGNED exception
resolving to UnknownNumber; unrecognized or null input is deferred to
value-based inference. -/
def mapDeclType (s : String) : Option ColumnType :=
  let norm := stripParens (jsToUpper s.data)
  let base := splitUnsigned norm
  let b := String.mk base.1
  let unsigned := base.2
  if b = "INT" ∨ b = "INTEGER" then
    if unsigned then some .unknownNumber else some .int32
  else if b = "TINYINT" ∨ b = "SMALLINT" ∨ b = "MEDIUMINT" then some .int32
  else if b = "BIGINT" then some .int64
  else if b = "TEXT" ∨ b = "VARCHAR" ∨ b = "CHAR" ∨ b = "NCHAR" ∨
          b = "NVARCHAR" ∨ b = "CLOB" ∨ b = "CHARACTER" then some .text
  else if b = "REAL" ∨ b = "DOUBLE" ∨ b = "DOUBLE PRECISION" then some .double
  else if b = "FLOAT" then some .float
  else if b = "NUMERIC" ∨ b = "DECIMAL" then some .numeric
  else if b = "BOOLEAN" ∨ b = "BOOL" then some .boolean
  else if b = "DATE" ∨ b = "DATETIME" ∨ b = "TIMESTAMP" then some .datetime
  else if b = "BLOB" then some .bytes
  else if b = "JSON" ∨ b = "JSONB" then some .json
  else none

/-- Whether a raw value is null. -/
def Value.isNull : Value → Bool
  | .null => true
  | _ => false

/-- Whether a raw value is a byte buffer. -/
def Value.isBlob : Value → Bool
  | .blob _ => true
  | _ => false

/-- Whether an integer lies within the 53-bit range that a JS number can
represent exactly. -/
def isSafe53 (i : Int) : Bool :=
  i.natAbs ≤ 2 ^ 53 - 1

/-- Whether a raw value is a 64-bit integer outside the safe-53-bit range. -/
def Value.isWideBigint : Value → Bool
  | .bigint i => ¬ isSafe53 i
  | _ => false

/-- Whether a raw value is numeric (a number or a 64-bit integer). -/
def Value.isNumeric : Value → Bool
  | .num _ => true
  | .real _ => true
  | .bigint _ => true
  | _ => false

/-- Modelled from the spec: the value-based type inferencer of
`src/conversion.ts` (implementation absent from the sources), scanning all
materialized values of one column: all null gives Int32; any byte buffer
gives Bytes; any 64-bit integer outside the safe-53-bit range gives Int64;
all non-null values numeric gives UnknownNumber; otherwise Text. -/
def inferColumnType (vals : List Value) : ColumnType :=
  if vals.all Value.isNull then .int32
  else if vals.any Value.isBlob then .bytes
  else if vals.any Value.isWideBigint then .int64
  else if vals.all (fun v => v.isNull || v.isNumeric) then .unknownNumber
  else .text

/-- The values of column `i` across all rows (missing positions read as
null). -/
def columnValues (rows : List (List Value)) (i : Nat) : List Value :=
  rows.map (fun r => r.getD i .null)

/-- Column type unification for one column: a concrete resolver output
wins; otherwise the inferencer decides from the column's values. -/
def resolveColumn (d : Option String) (vals : List Value) : ColumnType :=
  match d.bind mapDeclType with
  | some t => t
  | none => inferColumnType vals

/-- Helper for getColumnTypes carrying the current column index. -/
def getColumnTypesAux (rows : List (List Value)) :
    List (Option String) → Nat → List ColumnType
  | [], _ => []
  | d :: rest, i => resolveColumn d (columnValues rows i) ::
      getColumnTypesAux rows rest (i + 1)

/-- Modelled from the spec: getColumnTypes of `src/conversion.ts`
(implementation absent from the sources) — the column type unifier,
producing the fixed type vector once per query from the declared types and
the materialized rows. -/
def getColumnTypes (declaredTypes : List (Option String))
    (rows : List (List Value)) : List ColumnType :=
  getColumnTypesAux rows declaredTypes 0

/-- Transaction session states of BunSQLiteTransaction. -/
inductive TxState where
  | active
  | committed
  | rolledBack
deriving DecidableEq, Repr

/-- A transaction session: the `_state` field of BunSQLiteTransaction. -/
structure Tx where
  state : TxState
deriving DecidableEq, Repr

/-- The engine (bun:sqlite Database) is modelled as a map from statement
text to the outcome of running it: the number of changed rows on success,
or the native error message on failure. -/
def Engine : Type := String → Except String Nat

/-- Observable result of one call on a transaction session: the updated
session, the list of native statements issued to the engine during the
call, the number of `unlockParent` invocations, and the outcome. -/
structure CallResult (α : Type) where
  tx : Tx
  issued : List String
  unlocks : Nat
  out : Except AdapterError α

/-- BunSQLiteTransaction.commit: no-op on a closed session; otherwise run
native COMMIT, transition to committed on success or rolled_back on
failure (surfacing the translated error), releasing the lock either way. -/
def Tx.commit (t : Tx) (engine : Engine) : CallResult Unit :=
  if t.state ≠ .active then
    ⟨t, [], 0, .ok ()⟩
  else
    match engine "COMMIT" with
    | .ok _ => ⟨⟨.committed⟩, ["COMMIT"], 1, .ok ()⟩
    | .error e => ⟨⟨.rolledBack⟩, ["COMMIT"], 1, .error (convertDriverError e)⟩

/-- BunSQLiteTransaction.rollback: no-op on a closed session; otherwise run
native ROLLBACK, transition to rolled_back whether or not the native
statement succeeds, releasing the lock either way and surfacing the
translated error on failure. -/
def Tx.rollback (t : Tx) (engine : Engine) : CallResult Unit :=
  if t.state ≠ .active then
    ⟨t, [], 0, .ok ()⟩
  else
    match engine "ROLLBACK" with
    | .ok _ => ⟨⟨.rolledBack⟩, ["ROLLBACK"], 1, .ok ()⟩
    | .error e => ⟨⟨.rolledBack⟩, ["ROLLBACK"], 1, .error (convertDriverError e)⟩

/-- BunSQLiteTransaction.executeRaw: reject on a closed session with
TransactionAlreadyClosed; intercept raw COMMIT/ROLLBACK text and redirect
to commit/rollback (resolving with 0 on success); otherwise send the
statement to the engine once. -/
def Tx.executeRaw (t : Tx) (engine : Engine) (sql : String) : CallResult Nat :=
  if t.state ≠ .active then
    ⟨t, [], 0, .error (.transactionAlreadyClosed "Cannot execute query on a closed transaction.")⟩
  else if normalizeSql sql = "COMMIT".data then
    let r := t.commit engine
    ⟨r.tx, r.issued, r.unlocks, r.out.map fun _ => 0⟩
  else if normalizeSql sql = "ROLLBACK".data then
    let r := t.rollback engine
    ⟨r.tx, r.issued, r.unlocks, r.out.map fun _ => 0⟩
  else
    match engine sql with
    | .ok changes => ⟨t, [sql], 0, .ok changes⟩
    | .error e => ⟨t, [sql], 0, .error (convertDriverError e)⟩

/-- The decimal digit character for `n % 10`. -/
def digitChar (n : Nat) : Char :=
  Char.ofNat (48 + n % 10)

/-- Two-digit zero-padded decimal rendering (of `n % 100`). -/
def pad2 (n : Nat) : List Char :=
  [digitChar (n / 10), digitChar n]

/-- Three-digit zero-padded decimal rendering (of `n % 1000`). -/
def pad3 (n : Nat) : List Char :=
  [digitChar (n / 100), digitChar (n / 10), digitChar n]

/-- Four-digit zero-padded decimal rendering (of `n % 10000`). -/
def pad4 (n : Nat) : List Char :=
  [digitChar (n / 1000), digitChar (n / 100), digitChar (n / 10), digitChar n]

/-- The numeric value of a decimal digit character, if it is one. -/
def digitVal (c : Char) : Option Nat :=
  if '0' ≤ c ∧ c ≤ '9' then some (c.toNat - 48) else none

/-- Read exactly two decimal digits. -/
def read2 : List Char → Option (Nat × List Char)
  | a :: b :: rest => do
    let x ← digitVal a
    let y ← digitVal b
    pure (10 * x + y, rest)
  | _ => none

/-- Read exactly three decimal digits. -/
def read3 : List Char → Option (Nat × List Char)
  | a :: b :: c :: rest => do
    let x ← digitVal a
    let y ← digitVal b
    let z ← digitVal c
    pure (100 * x + 10 * y + z, rest)
  | _ => none

/-- Read exactly four decimal digits. -/
def read4 : List Char → Option (Nat × List Char)
  | a :: b :: c :: d :: rest => do
    let x ← digitVal a
    let y ← digitVal b
    let z ← digitVal c
    let w ← digitVal d
    pure (1000 * x + 100 * y + 10 * z + w, rest)
  | _ => none

/-- Days since 1970-01-01 of a proleptic-Gregorian civil date
(Howard Hinnant's days_from_civil). -/
def daysFromCivil (y : Int) (m d : Nat) : Int :=
  let yAdj : Int := if m ≤ 2 then y - 1 else y
  let era : Int := Int.ediv yAdj 400
  let yoe : Nat := (yAdj - era * 400).toNat
  let mp : Nat := if m > 2 then m - 3 else m + 9
  let doy : Nat := (153 * mp + 2) / 5 + d - 1
  let doe : Nat := yoe * 365 + yoe / 4 - yoe / 100 + doy
  era * 146097 + (doe : Int) - 719468

/-- Civil date (year, month, day) of a count of days since 1970-01-01
(Howard Hinnant's civil_from_days). -/
def civilFromDays (z : Int) : Int × Nat × Nat :=
  let zz : Int := z + 719468
  let era : Int := Int.ediv zz 146097
  let doe : Nat := (zz - era * 146097).toNat
  let yoe : Nat := (doe - doe / 1460 + doe / 36524 - doe / 146096) / 365
  let doy : Nat := doe - (365 * yoe + yoe / 4 - yoe / 100)
  let mp : Nat := (5 * doy + 2) / 153
  let d : Nat := doy - (153 * mp + 2) / 5 + 1
  let m : Nat := if mp < 10 then mp + 3 else mp - 9
  (((yoe : Int) + era * 400 + (if m ≤ 2 then 1 else 0)), m, d)

/-- Broken-down UTC timestamp components. -/
structure DTComps where
  year : Int
  month : Nat
  day : Nat
  hour : Nat
  minute : Nat
  second : Nat
  millis : Nat
deriving DecidableEq, Repr

/-- Milliseconds since the Unix epoch of broken-down UTC components. -/
def epochOfComps (c : DTComps) : Int :=
  daysFromCivil c.year c.month c.day * 86400000 +
    ((c.hour * 3600000 + c.minute * 60000 + c.second * 1000 + c.millis : Nat) : Int)

/-- Broken-down UTC components of a count of milliseconds since the Unix
epoch. -/
def compsOfEpoch (e : Int) : DTComps :=
  let days : Int := Int.ediv e 86400000
  let ms : Nat := (e - days * 86400000).toNat
  let c := civilFromDays days
  { year := c.1, month := c.2.1, day := c.2.2,
    hour := ms / 3600000, minute := ms / 60000 % 60,
    second := ms / 1000 % 60, millis := ms % 1000 }

/-- Characters of the canonical UTC timestamp rendering
YYYY-MM-DDTHH:mm:ss.sssZ. -/
def formatCompsChars (c : DTComps) : List Char :=
  pad4 c.year.toNat ++ '-' :: pad2 c.month ++ '-' :: pad2 c.day ++
  'T' :: pad2 c.hour ++ ':' :: pad2 c.minute ++ ':' :: pad2 c.second ++
  '.' :: pad3 c.millis ++ ['Z']

/-- The canonical UTC timestamp rendering of broken-down components. -/
def formatComps (c : DTComps) : String :=
  String.mk (formatCompsChars c)

/-- The canonical UTC timestamp rendering of an epoch-millisecond count,
as produced by JS Date.prototype.toISOString. -/
def isoStringOfEpoch (e : Int) : String :=
  formatComps (compsOfEpoch e)

/-- Gregorian leap-year predicate. -/
def isLeapYear (y : Int) : Bool :=
  y % 4 = 0 ∧ (y % 100 ≠ 0 ∨ y % 400 = 0)

/-- Number of days in a month of a given year. -/
def daysInMonth (y : Int) (m : Nat) : Nat :=
  if m = 2 then (if isLeapYear y then 29 else 28)
  else if m = 4 ∨ m = 6 ∨ m = 9 ∨ m = 11 then 30
  else 31

/-- A parsed timestamp string: components plus the minutes of its UTC
offset (0 for a trailing Z, for no offset, and for the space-separated
engine-native shape, all of which are treated as UTC). -/
structure ParsedDT where
  comps : DTComps
  offsetMinutes : Int
deriving DecidableEq, Repr

/-- Consume the date/time separator: a space (engine-native shape) or T
(ISO shape). -/
def parseSep : List Char → Option (List Char)
  | [] => none
  | c :: rest => if c = ' ' ∨ c = 'T' then some rest else none

/-- Consume one expected character. -/
def expectChar (ch : Char) : List Char → Option (List Char)
  | c :: rest => if c = ch then some rest else none
  | [] => none

/-- Consume an optional fractional-second part of three digits. -/
def parseMillis : List Char → Option (Nat × List Char)
  | [] => some (0, [])
  | c :: rest => if c = '.' then read3 rest else some (0, c :: rest)

/-- Consume the timestamp tail: empty and Z give UTC offset zero; a signed
HH:MM gives the offset in minutes. -/
def parseOffset : List Char → Option Int
  | [] => some 0
  | c :: rest =>
    if c = 'Z' then (if rest = [] then some 0 else none)
    else if c = '+' ∨ c = '-' then do
      let r1 ← read2 rest
      let rest2 ← expectChar ':' r1.2
      let r2 ← read2 rest2
      if r2.2 = [] ∧ r1.1 ≤ 23 ∧ r2.1 ≤ 59 then
        pure (if c = '+' then (r1.1 * 60 + r2.1 : Int) else -(r1.1 * 60 + r2.1 : Int))
      else none
    else none

/-- Consume the YYYY-MM-DD date portion, yielding year, month, day and the
remaining input. -/
def parseDatePart (cs : List Char) : Option (Nat × Nat × Nat × List Char) := do
  let ry ← read4 cs
  let cs2 ← expectChar '-' ry.2
  let rmo ← read2 cs2
  let cs4 ← expectChar '-' rmo.2
  let rd ← read2 cs4
  pure (ry.1, rmo.1, rd.1, rd.2)

/-- Consume the HH:mm:ss time portion, yielding hour, minute, second and
the remaining input. -/
def parseTimePart (cs : List Char) : Option (Nat × Nat × Nat × List Char) := do
  let rh ← read2 cs
  let cs8 ← expectChar ':' rh.2
  let rmi ← read2 cs8
  let cs10 ← expectChar ':' rmi.2
  let rs ← read2 cs10
  pure (rh.1, rmi.1, rs.1, rs.2)

/-- Modelled from the spec: the recognized timestamp string shapes of the
row marshaller of `src/conversion.ts` (implementation absent from the
sources): YYYY-MM-DD followed by a space or T, HH:mm:ss, an optional
.sss fraction, and an optional Z or signed HH:MM offset, with calendar
validity required. -/
def parseDateTimeChars (cs : List Char) : Option ParsedDT := do
  let rdate ← parseDatePart cs
  let cs6 ← parseSep rdate.2.2.2
  let rtime ← parseTimePart cs6
  let rms ← parseMillis rtime.2.2.2
  let off ← parseOffset rms.2
  if 1 ≤ rdate.2.1 ∧ rdate.2.1 ≤ 12 ∧ 1 ≤ rdate.2.2.1 ∧
      rdate.2.2.1 ≤ daysInMonth rdate.1 rdate.2.1 ∧
      rtime.1 ≤ 23 ∧ rtime.2.1 ≤ 59 ∧ rtime.2.2.1 ≤ 59 then
    pure ⟨⟨(rdate.1 : Int), rdate.2.1, rdate.2.2.1,
      rtime.1, rtime.2.1, rtime.2.2.1, rms.1⟩, off⟩
  else none

/-- Modelled from the spec: canonicalization of a timestamp string by the
row marshaller of `src/conversion.ts` (implementation absent from the
sources): a recognized string is reformatted to the canonical UTC shape
(zero-offset shapes are treated as UTC and reformatted directly; a nonzero
offset is applied through epoch arithmetic); an unparseable string is
passed through unchanged. -/
def canonicalizeDateTimeString (s : String) : String :=
  match parseDateTimeChars s.data with
  | some p =>
    if p.offsetMinutes = 0 then formatComps p.comps
    else isoStringOfEpoch (epochOfComps p.comps - p.offsetMinutes * 60000)
  | none => s

/-- Truncation of a rational toward zero, as JS Date clips a fractional
time value. -/
def truncRat (q : ℚ) : Int :=
  if q < 0 then ⌈q⌉ else ⌊q⌋

/-- Modelled from the spec: DateTime-column value conversion of the row
marshaller of `src/conversion.ts` (implementation absent from the
sources): numeric and 64-bit-integer epoch milliseconds convert directly
to the canonical UTC string; strings are canonicalized with unparseable
input passed through; null stays null. -/
def convertDateTime : Value → MValue
  | .null => .null
  | .num e => .str (isoStringOfEpoch e)
  | .bigint e => .str (isoStringOfEpoch e)
  | .real q => .str (isoStringOfEpoch (truncRat q))
  | .text s => .str (canonicalizeDateTimeString s)
  | .blob bs => .bytes bs

/-- Fuel-indexed decimal digit rendering; the fuel only bounds the
recursion depth. -/
def natDigitsFuel : Nat → Nat → List Char
  | 0, n => [digitChar n]
  | fuel + 1, n =>
    if n < 10 then [digitChar n]
    else natDigitsFuel fuel (n / 10) ++ [digitChar n]

/-- The decimal digits of a natural number, most significant first. -/
def natDigits (n : Nat) : List Char :=
  natDigitsFuel n n

/-- Exact decimal-digit string of an integer, as JS BigInt.toString. -/
def decimalString (i : Int) : String :=
  if i < 0 then String.mk ('-' :: natDigits i.natAbs)
  else String.mk (natDigits i.natAbs)

/-- Accumulating decimal reader over digit characters. -/
def readNatAux : List Char → Nat → Option Nat
  | [], acc => some acc
  | c :: rest, acc => do
    let d ← digitVal c
    readNatAux rest (10 * acc + d)

/-- Parse a (possibly negative) decimal integer string back to its value;
used to state losslessness of the decimal rendering. -/
def readDecimal (s : String) : Option Int :=
  match s.data with
  | [] => none
  | c :: rest =>
    if c = '-' then
      if rest = [] then none else (readNatAux rest 0).map (fun n => -(n : Int))
    else (readNatAux (c :: rest) 0).map (fun n => (n : Int))

/-- Modelled from the spec: per-value row marshalling of
`src/conversion.ts` (implementation absent from the sources): null stays
null; DateTime columns convert through the timestamp canonicalizer; any
64-bit integer in a non-DateTime column is stringified to exact decimal
digits; byte buffers become arrays of byte values; integer columns
truncate fractional numbers toward zero; everything else passes through
unchanged. -/
def mapValue (t : ColumnType) (v : Value) : MValue :=
  match v with
  | .null => .null
  | v =>
    match t with
    | .datetime => convertDateTime v
    | t =>
      match v with
      | .bigint i => .str (decimalString i)
      | .num n => .int n
      | .real q =>
        match t with
        | .int32 => .int (truncRat q)
        | .int64 => .int (truncRat q)
        | _ => .real q
      | .text s => .str s
      | .blob bs => .bytes bs
      | .null => .null

/-- Modelled from the spec: mapRow of `src/conversion.ts` (implementation
absent from the sources) — marshal one raw row along the column type
vector. -/
def mapRow (row : List Value) (columnTypes : List ColumnType) : List MValue :=
  (row.zip columnTypes).map (fun p => mapValue p.2 p.1)

/-- The engine-side result of one executed query: per-column declared
types, column names, and raw rows (the BunSQLiteResultSet shape of
`src/adapter.ts`). -/
structure BunResultSet where
  declaredTypes : List (Option String)
  columnNames : List String
  values : List (List Value)

/-- A marshalled result set as returned to the caller. -/
structure ResultSet where
  columnNames : List String
  columnTypes : List ColumnType
  rows : List (List MValue)
deriving DecidableEq, Repr

/-- BunSQLiteQueryable.queryRaw of `src/adapter.ts` after engine
execution: compute the column type vector once, then marshal every raw
row along it. -/
def queryRawResult (rs : BunResultSet) : ResultSet :=
  let columnTypes := getColumnTypes rs.declaredTypes rs.values
  ⟨rs.columnNames, columnTypes, rs.values.map (fun row => mapRow row columnTypes)⟩

/-- BunSQLiteTransaction.queryRaw: reject on a closed session with
TransactionAlreadyClosed; otherwise run the query pipeline on the engine
result. -/
def Tx.queryRaw (t : Tx) (sql : String)
    (engineRes : Except String BunResultSet) : CallResult ResultSet :=
  if t.state ≠ .active then
    ⟨t, [], 0, .error (.transactionAlreadyClosed "Cannot execute query on a closed transaction.")⟩
  else
    match engineRes with
    | .ok rs => ⟨t, [sql], 0, .ok (queryRawResult rs)⟩
    | .error e => ⟨t, [sql], 0, .error (convertDriverError e)⟩

/-- Whether a character is a decimal digit. -/
def isDigitChar (c : Char) : Bool :=
  (digitVal c).isSome

/-- Whether a character list has the canonical timestamp shape
YYYY-MM-DDTHH:mm:ss.sssZ (the regex with four, then pairs of, then three
digit positions and fixed separators). -/
def isCanonicalDTChars : List Char → Bool
  | [y1, y2, y3, y4, a1, m1, m2, a2, d1, d2, t1, h1, h2, b1, n1, n2, b2, x1, x2, p1, f1, f2, f3, z1] =>
    ([y1, y2, y3, y4, m1, m2, d1, d2, h1, h2, n1, n2, x1, x2, f1, f2, f3].all isDigitChar) &&
      a1 = '-' && a2 = '-' && t1 = 'T' && b1 = ':' && b2 = ':' && p1 = '.' && z1 = 'Z'
  | _ => false

/-- Whether a string has the canonical timestamp shape. -/
def isCanonicalDT (s : String) : Bool :=
  isCanonicalDTChars s.data

/-- Characters of the engine-native space-separated timestamp shape
YYYY-MM-DD HH:mm:ss for given components (ignoring milliseconds). -/
def engineNativeChars (c : DTComps) : List Char :=
  pad4 c.year.toNat ++ '-' :: pad2 c.month ++ '-' :: pad2 c.day ++
  ' ' :: pad2 c.hour ++ ':' :: pad2 c.minute ++ ':' :: pad2 c.second

/-- The engine-native space-separated timestamp string of components. -/
def engineNativeString (c : DTComps) : String :=
  String.mk (engineNativeChars c)

/-- Characters of the offset-less ISO timestamp shape
YYYY-MM-DDTHH:mm:ss for given components (ignoring milliseconds). -/
def isoNoOffsetChars (c : DTComps) : List Char :=
  pad4 c.year.toNat ++ '-' :: pad2 c.month ++ '-' :: pad2 c.day ++
  'T' :: pad2 c.hour ++ ':' :: pad2 c.minute ++ ':' :: pad2 c.second

/-- The offset-less ISO timestamp string of components. -/
def isoNoOffsetString (c : DTComps) : String :=
  String.mk (isoNoOffsetChars c)

/-- Characters of the ISO timestamp shape with fractional seconds and an
explicit signed HH:MM offset. -/
def isoOffsetChars (c : DTComps) (plus : Bool) (oh om : Nat) : List Char :=
  isoNoOffsetChars c ++ '.' :: pad3 c.millis ++
    (if plus then '+' else '-') :: pad2 oh ++ ':' :: pad2 om

/-- The ISO timestamp string with fractional seconds and a signed HH:MM
offset. -/
def isoOffsetString (c : DTComps) (plus : Bool) (oh om : Nat) : String :=
  String.mk (isoOffsetChars c plus oh om)

/-- The signed minute count of an HH:MM offset. -/
def offsetMinutesOf (plus : Bool) (oh om : Nat) : Int :=
  if plus then (oh * 60 + om : Int) else -(oh * 60 + om : Int)

/-- Observable result of PrismaBunSQLiteAdapter.startTransaction: how
often the connection lock was acquired and released during the call, and
the outcome. -/
structure StartResult where
  acquired : Nat
  released : Nat
  out : Except AdapterError Tx

/-- The lock-holding section of startTransaction: with the lock acquired,
issue native BEGIN; on success return an active session owning the lock;
on failure release the lock and surface the translated error. -/
def startTransactionLocked (engine : Engine) : StartResult :=
  match engine "BEGIN" with
  | .ok _ => ⟨1, 0, .ok ⟨.active⟩⟩
  | .error e => ⟨1, 1, .error (convertDriverError e)⟩

/-- PrismaBunSQLiteAdapter.startTransaction: any isolation level other
than SERIALIZABLE is rejected before the lock is touched; otherwise the
lock is acquired and native BEGIN issued. -/
def startTransaction (isolationLevel : Option String) (engine : Engine) : StartResult :=
  match isolationLevel with
  | some lvl =>
    if lvl ≠ "SERIALIZABLE" then ⟨0, 0, .error (.invalidIsolationLevel lvl)⟩
    else startTransactionLocked engine
  | none => startTransactionLocked engine

/-- Indexing lemma for the column-type unifier: the type of column `i` is
computed from its declared type and its values alone. -/
theorem getColumnTypesAux_getElem (rows : List (List Value)) :
    ∀ (declared : List (Option String)) (k i : Nat),
      (getColumnTypesAux rows declared k)[i]? =
        (declared[i]?).map (fun d => resolveColumn d (columnValues rows (k + i))) := by
  intro declared
  induction declared with
  | nil => intro k i; simp [getColumnTypesAux]
  | cons d rest ih =>
    intro k i
    cases i with
    | zero => simp [getColumnTypesAux]
    | succ j =>
      simp only [getColumnTypesAux, List.getElem?_cons_succ]
      rw [ih (k + 1) j]
      have hki : k + 1 + j = k + (j + 1) := by omega
      rw [hki]

/-- C1: a result column whose declared type string is the bare
word-for-word INTEGER UNSIGNED or INT UNSIGNED is resolved by
getColumnTypes to UnknownNumber, never to Int32, regardless of the
materialized rows. -/
theorem integer_unsigned_is_unknown_number (declared : List (Option String))
    (rows : List (List Value)) (i : Nat) (s : String)
    (hget : declared[i]? = some (some s))
    (hs : s = "INTEGER UNSIGNED" ∨ s = "INT UNSIGNED") :
    (getColumnTypes declared rows)[i]? = some .unknownNumber ∧
    (getColumnTypes declared rows)[i]? ≠ some .int32 := by
  have h := getColumnTypesAux_getElem rows declared 0 i
  rw [hget] at h
  have hmap : mapDeclType s = some .unknownNumber := by
    rcases hs with rfl | rfl <;> decide
  rw [getColumnTypes, h]
  simp [resolveColumn, hmap]

/-- Witness for C1 on a concrete two-column schema. -/
theorem integer_unsigned_is_unknown_number_witness :
    (([some "TEXT", some "INTEGER UNSIGNED"] : List (Option String))[1]? =
        some (some "INTEGER UNSIGNED") ∧
      ("INTEGER UNSIGNED" = "INTEGER UNSIGNED" ∨ "INTEGER UNSIGNED" = "INT UNSIGNED")) ∧
    ((getColumnTypes [some "TEXT", some "INTEGER UNSIGNED"]
        [[Value.text "a", Value.num 1]])[1]? = some .unknownNumber ∧
    (getColumnTypes [some "TEXT", some "INTEGER UNSIGNED"]
        [[Value.text "a", Value.num 1]])[1]? ≠ some .int32) :=
  ⟨⟨rfl, Or.inl rfl⟩,
    integer_unsigned_is_unknown_number [some "TEXT", some "INTEGER UNSIGNED"]
      [[Value.text "a", Value.num 1]] 1 "INTEGER UNSIGNED" rfl (Or.inl rfl)⟩

/-- C2: for zero-row results the type vector is fully determined by the
declared types (a column with no or unrecognized declared type defaults
to Int32), and on the scenario table t(id INTEGER PRIMARY KEY, v TEXT
UNIQUE) a no-match SELECT yields column names id and v, column types
Int32 and Text, and no rows. -/
theorem zero_row_types_from_declared (declared : List (Option String)) :
    getColumnTypes declared [] =
      declared.map (fun d => ((d.bind mapDeclType).getD .int32)) ∧
    queryRawResult ⟨[some "INTEGER", some "TEXT"], ["id", "v"], []⟩ =
      ⟨["id", "v"], [.int32, .text], []⟩ := by
  constructor
  · have haux : ∀ (l : List (Option String)) (k : Nat),
        getColumnTypesAux ([] : List (List Value)) l k =
          l.map (fun d => ((d.bind mapDeclType).getD .int32)) := by
      intro l
      induction l with
      | nil => intro k; simp [getColumnTypesAux]
      | cons d rest ih =>
        intro k
        simp only [getColumnTypesAux, List.map_cons, ih]
        congr 1
        cases hd : d.bind mapDeclType <;>
          simp [resolveColumn, hd, columnValues, inferColumnType]
    exact haux declared 0
  · decide

/-- The decimal reader recovers a digit character's value. -/
theorem digitVal_digitChar (n : Nat) : digitVal (digitChar n) = some (n % 10) := by
  have h : n % 10 < 10 := Nat.mod_lt n (by omega)
  unfold digitChar
  generalize n % 10 = m at h ⊢
  interval_cases m <;> decide

/-- A digit character is never the minus sign. -/
theorem digitChar_ne_dash (n : Nat) : digitChar n ≠ '-' := by
  intro h
  have := digitVal_digitChar n
  rw [h] at this
  simp [digitVal] at this

/-- The accumulating decimal reader distributes over append. -/
theorem readNatAux_append (l1 l2 : List Char) :
    ∀ acc, readNatAux (l1 ++ l2) acc =
      (readNatAux l1 acc).bind (fun m => readNatAux l2 m) := by
  induction l1 with
  | nil => intro acc; simp [readNatAux]
  | cons c rest ih =>
    intro acc
    cases hc : digitVal c with
    | none => simp [readNatAux, hc]
    | some d => simp [readNatAux, hc, ih]

/-- The fuel-indexed digit rendering never produces an empty list. -/
theorem natDigitsFuel_ne_nil (fuel n : Nat) : natDigitsFuel fuel n ≠ [] := by
  cases fuel with
  | zero => simp [natDigitsFuel]
  | succ f =>
    by_cases h : n < 10 <;> simp [natDigitsFuel, h]

/-- The fuel-indexed digit rendering starts with a digit character. -/
theorem natDigitsFuel_head (fuel : Nat) :
    ∀ n, ∃ d l, natDigitsFuel fuel n = digitChar d :: l := by
  induction fuel with
  | zero => intro n; exact ⟨n, [], rfl⟩
  | succ f ih =>
    intro n
    by_cases h : n < 10
    · exact ⟨n, [], by simp [natDigitsFuel, h]⟩
    · obtain ⟨d, l, hdl⟩ := ih (n / 10)
      exact ⟨d, l ++ [digitChar n], by simp [natDigitsFuel, h, hdl]⟩

/-- Reading back the fuel-indexed digit rendering recovers the number
(with the accumulator shifted by the digit count). -/
theorem readNatAux_natDigitsFuel :
    ∀ (fuel n acc : Nat), n ≤ fuel →
      readNatAux (natDigitsFuel fuel n) acc =
        some (acc * 10 ^ (natDigitsFuel fuel n).length + n) := by
  intro fuel
  induction fuel with
  | zero =>
    intro n acc h
    have hn : n = 0 := by omega
    subst hn
    simp [natDigitsFuel, readNatAux, digitVal_digitChar]
    omega
  | succ f ih =>
    intro n acc h
    by_cases hn : n < 10
    · simp [natDigitsFuel, hn, readNatAux, digitVal_digitChar, Nat.mod_eq_of_lt hn]
      omega
    · have hdiv : n / 10 ≤ f := by omega
      rw [natDigitsFuel, if_neg hn, readNatAux_append, ih (n / 10) acc hdiv]
      simp [readNatAux, digitVal_digitChar, Option.bind]
      rw [pow_succ, ← mul_assoc]
      generalize acc * 10 ^ (natDigitsFuel f (n / 10)).length = P
      omega

/-- Reading back the digit rendering of a natural number recovers it. -/
theorem readNatAux_natDigits (n : Nat) : readNatAux (natDigits n) 0 = some n := by
  rw [natDigits, readNatAux_natDigitsFuel n n 0 (le_refl n)]
  simp

/-- Padded digit characters are digit characters. -/
theorem isDigitChar_digitChar (n : Nat) : isDigitChar (digitChar n) = true := by
  simp [isDigitChar, digitVal_digitChar]

/-- Reading two digits back from the two-digit padding yields the value
modulo 100. -/
theorem read2_pad2 (n : Nat) (rest : List Char) :
    read2 (pad2 n ++ rest) = some (n % 100, rest) := by
  simp [read2, pad2, digitVal_digitChar]
  omega

/-- Reading three digits back from the three-digit padding yields the
value modulo 1000. -/
theorem read3_pad3 (n : Nat) (rest : List Char) :
    read3 (pad3 n ++ rest) = some (n % 1000, rest) := by
  simp [read3, pad3, digitVal_digitChar]
  omega

/-- Reading four digits back from the four-digit padding yields the value
modulo 10000. -/
theorem read4_pad4 (n : Nat) (rest : List Char) :
    read4 (pad4 n ++ rest) = some (n % 10000, rest) := by
  simp [read4, pad4, digitVal_digitChar]
  omega

/-- The canonical formatter always produces a string of the canonical
YYYY-MM-DDTHH:mm:ss.sssZ shape. -/
theorem isCanonicalDT_formatComps (c : DTComps) :
    isCanonicalDT (formatComps c) = true := by
  simp [isCanonicalDT, formatComps, formatCompsChars, pad4, pad3, pad2,
    isCanonicalDTChars, isDigitChar_digitChar]

/-- A month has at most 31 days. -/
theorem daysInMonth_le (y : Int) (m : Nat) : daysInMonth y m ≤ 31 := by
  unfold daysInMonth
  split
  · split <;> omega
  · split <;> omega

/-- Consuming an expected character succeeds exactly on that character. -/
theorem expectChar_self (ch : Char) (rest : List Char) :
    expectChar ch (ch :: rest) = some rest := by
  simp [expectChar]

/-- The date-part reader recovers the padded components modulo their
field widths. -/
theorem parseDatePart_pads (y mo d : Nat) (rest : List Char) :
    parseDatePart (pad4 y ++ ('-' :: (pad2 mo ++ ('-' :: (pad2 d ++ rest))))) =
      some (y % 10000, mo % 100, d % 100, rest) := by
  simp [parseDatePart, read4_pad4, read2_pad2, expectChar_self]

/-- The time-part reader recovers the padded components modulo their
field widths. -/
theorem parseTimePart_pads (h mi s : Nat) (rest : List Char) :
    parseTimePart (pad2 h ++ (':' :: (pad2 mi ++ (':' :: (pad2 s ++ rest))))) =
      some (h % 100, mi % 100, s % 100, rest) := by
  simp [parseTimePart, read2_pad2, expectChar_self]

/-- The time-part reader on input ending right after the seconds. -/
theorem parseTimePart_pads_nil (h mi s : Nat) :
    parseTimePart (pad2 h ++ (':' :: (pad2 mi ++ (':' :: pad2 s)))) =
      some (h % 100, mi % 100, s % 100, []) := by
  have := parseTimePart_pads h mi s []
  simpa using this

/-- The offset reader recovers a padded signed HH:MM offset. -/
theorem parseOffset_signed (plus : Bool) (oh om : Nat)
    (hoh : oh ≤ 23) (hom : om ≤ 59) :
    parseOffset ((if plus then '+' else '-') :: (pad2 oh ++ (':' :: pad2 om))) =
      some (offsetMinutesOf plus oh om) := by
  have e7 : oh % 100 = oh := Nat.mod_eq_of_lt (by omega)
  have e8 : om % 100 = om := Nat.mod_eq_of_lt (by omega)
  have hr : read2 (pad2 oh ++ (':' :: pad2 om)) = some (oh, ':' :: pad2 om) := by
    rw [read2_pad2, e7]
  have hr2 : read2 (pad2 om) = some (om, []) := by
    simpa [e8] using read2_pad2 om []
  cases plus <;>
    simp [parseOffset, hr, hr2, expectChar_self, offsetMinutesOf, hoh, hom]

/-- Parsing the engine-native space-separated rendering of valid
components recovers them with offset zero and no milliseconds. -/
theorem parse_engineNative (c : DTComps) (hy : 0 ≤ c.year) (hy2 : c.year ≤ 9999)
    (hmo1 : 1 ≤ c.month) (hmo2 : c.month ≤ 12)
    (hd1 : 1 ≤ c.day) (hd2 : c.day ≤ daysInMonth c.year c.month)
    (hh : c.hour ≤ 23) (hmi : c.minute ≤ 59) (hs : c.second ≤ 59) :
    parseDateTimeChars (engineNativeChars c) =
      some ⟨⟨c.year, c.month, c.day, c.hour, c.minute, c.second, 0⟩, 0⟩ := by
  have hd31 : c.day ≤ 31 := le_trans hd2 (daysInMonth_le _ _)
  have hynat : (c.year.toNat : Int) = c.year := Int.toNat_of_nonneg hy
  have e1 : c.year.toNat % 10000 = c.year.toNat := Nat.mod_eq_of_lt (by omega)
  have e2 : c.month % 100 = c.month := Nat.mod_eq_of_lt (by omega)
  have e3 : c.day % 100 = c.day := Nat.mod_eq_of_lt (by omega)
  have e4 : c.hour % 100 = c.hour := Nat.mod_eq_of_lt (by omega)
  have e5 : c.minute % 100 = c.minute := Nat.mod_eq_of_lt (by omega)
  have e6 : c.second % 100 = c.second := Nat.mod_eq_of_lt (by omega)
  simp only [engineNativeChars, List.append_assoc, List.cons_append]
  simp only [parseDateTimeChars, Option.bind_eq_bind, parseDatePart_pads,
    Option.some_bind, parseSep, true_or, or_true, if_true, ite_true,
    parseTimePart_pads_nil, parseMillis, parseOffset,
    e1, e2, e3, e4, e5, e6, hynat]
  rw [if_pos ⟨hmo1, hmo2, hd1, hd2, hh, hmi, hs⟩]
  rfl

/-- Parsing the offset-less ISO rendering of valid components recovers
them with offset zero and no milliseconds. -/
theorem parse_isoNoOffset (c : DTComps) (hy : 0 ≤ c.year) (hy2 : c.year ≤ 9999)
    (hmo1 : 1 ≤ c.month) (hmo2 : c.month ≤ 12)
    (hd1 : 1 ≤ c.day) (hd2 : c.day ≤ daysInMonth c.year c.month)
    (hh : c.hour ≤ 23) (hmi : c.minute ≤ 59) (hs : c.second ≤ 59) :
    parseDateTimeChars (isoNoOffsetChars c) =
      some ⟨⟨c.year, c.month, c.day, c.hour, c.minute, c.second, 0⟩, 0⟩ := by
  have hd31 : c.day ≤ 31 := le_trans hd2 (daysInMonth_le _ _)
  have hynat : (c.year.toNat : Int) = c.year := Int.toNat_of_nonneg hy
  have e1 : c.year.toNat % 10000 = c.year.toNat := Nat.mod_eq_of_lt (by omega)
  have e2 : c.month % 100 = c.month := Nat.mod_eq_of_lt (by omega)
  have e3 : c.day % 100 = c.day := Nat.mod_eq_of_lt (by omega)
  have e4 : c.hour % 100 = c.hour := Nat.mod_eq_of_lt (by omega)
  have e5 : c.minute % 100 = c.minute := Nat.mod_eq_of_lt (by omega)
  have e6 : c.second % 100 = c.second := Nat.mod_eq_of_lt (by omega)
  simp only [isoNoOffsetChars, List.append_assoc, List.cons_append]
  simp only [parseDateTimeChars, Option.bind_eq_bind, parseDatePart_pads,
    Option.some_bind, parseSep, true_or, or_true, if_true, ite_true,
    parseTimePart_pads_nil, parseMillis, parseOffset,
    e1, e2, e3, e4, e5, e6, hynat]
  rw [if_pos ⟨hmo1, hmo2, hd1, hd2, hh, hmi, hs⟩]
  rfl

/-- Parsing the canonical Z-suffixed rendering of valid components
recovers them exactly, milliseconds included, with offset zero. -/
theorem parse_isoZ (c : DTComps) (hy : 0 ≤ c.year) (hy2 : c.year ≤ 9999)
    (hmo1 : 1 ≤ c.month) (hmo2 : c.month ≤ 12)
    (hd1 : 1 ≤ c.day) (hd2 : c.day ≤ daysInMonth c.year c.month)
    (hh : c.hour ≤ 23) (hmi : c.minute ≤ 59) (hs : c.second ≤ 59)
    (hms : c.millis ≤ 999) :
    parseDateTimeChars (formatCompsChars c) = some ⟨c, 0⟩ := by
  have hd31 : c.day ≤ 31 := le_trans hd2 (daysInMonth_le _ _)
  have hynat : (c.year.toNat : Int) = c.year := Int.toNat_of_nonneg hy
  have e1 : c.year.toNat % 10000 = c.year.toNat := Nat.mod_eq_of_lt (by omega)
  have e2 : c.month % 100 = c.month := Nat.mod_eq_of_lt (by omega)
  have e3 : c.day % 100 = c.day := Nat.mod_eq_of_lt (by omega)
  have e4 : c.hour % 100 = c.hour := Nat.mod_eq_of_lt (by omega)
  have e5 : c.minute % 100 = c.minute := Nat.mod_eq_of_lt (by omega)
  have e6 : c.second % 100 = c.second := Nat.mod_eq_of_lt (by omega)
  have e7 : c.millis % 1000 = c.millis := Nat.mod_eq_of_lt (by omega)
  simp only [formatCompsChars, List.append_assoc, List.cons_append]
  simp only [parseDateTimeChars, Option.bind_eq_bind, parseDatePart_pads,
    Option.some_bind, parseSep, parseMillis, parseOffset, read3_pad3,
    true_or, or_true, if_true, ite_true,
    parseTimePart_pads, e1, e2, e3, e4, e5, e6, e7, hynat]
  rw [if_pos ⟨hmo1, hmo2, hd1, hd2, hh, hmi, hs⟩]
  rfl

/-- Parsing the offset-suffixed ISO rendering of valid components
recovers them exactly together with the signed offset minutes. -/
theorem parse_isoOffset (c : DTComps) (plus : Bool) (oh om : Nat)
    (hy : 0 ≤ c.year) (hy2 : c.year ≤ 9999)
    (hmo1 : 1 ≤ c.month) (hmo2 : c.month ≤ 12)
    (hd1 : 1 ≤ c.day) (hd2 : c.day ≤ daysInMonth c.year c.month)
    (hh : c.hour ≤ 23) (hmi : c.minute ≤ 59) (hs : c.second ≤ 59)
    (hms : c.millis ≤ 999) (hoh : oh ≤ 23) (hom : om ≤ 59) :
    parseDateTimeChars (isoOffsetChars c plus oh om) =
      some ⟨c, offsetMinutesOf plus oh om⟩ := by
  have hd31 : c.day ≤ 31 := le_trans hd2 (daysInMonth_le _ _)
  have hynat : (c.year.toNat : Int) = c.year := Int.toNat_of_nonneg hy
  have e1 : c.year.toNat % 10000 = c.year.toNat := Nat.mod_eq_of_lt (by omega)
  have e2 : c.month % 100 = c.month := Nat.mod_eq_of_lt (by omega)
  have e3 : c.day % 100 = c.day := Nat.mod_eq_of_lt (by omega)
  have e4 : c.hour % 100 = c.hour := Nat.mod_eq_of_lt (by omega)
  have e5 : c.minute % 100 = c.minute := Nat.mod_eq_of_lt (by omega)
  have e6 : c.second % 100 = c.second := Nat.mod_eq_of_lt (by omega)
  have e7 : c.millis % 1000 = c.millis := Nat.mod_eq_of_lt (by omega)
  simp only [isoOffsetChars, isoNoOffsetChars, List.append_assoc, List.cons_append]
  simp only [parseDateTimeChars, Option.bind_eq_bind, parseDatePart_pads,
    Option.some_bind, parseSep, parseMillis, read3_pad3,
    true_or, or_true, if_true, ite_true,
    parseTimePart_pads, parseOffset_signed, hoh, hom,
    e1, e2, e3, e4, e5, e6, e7, hynat]
  rw [if_pos ⟨hmo1, hmo2, hd1, hd2, hh, hmi, hs⟩]
  rfl

/-- C3: a DateTime-column value is marshalled by mapValue to the canonical
YYYY-MM-DDTHH:mm:ss.sssZ UTC string for every recognized input shape —
epoch-millisecond number, 64-bit integer epoch, engine-native
space-separated string treated as UTC, ISO without offset, ISO with Z,
ISO with a zero offset (components preserved), and ISO with a nonzero
offset (shifted through epoch arithmetic, still canonical) — while an
unparseable string passes through unchanged and null stays null. -/
theorem datetime_marshals_canonical (c : DTComps) (e : Int) (plus : Bool)
    (oh om : Nat) (s : String)
    (hy : 0 ≤ c.year) (hy2 : c.year ≤ 9999)
    (hmo1 : 1 ≤ c.month) (hmo2 : c.month ≤ 12)
    (hd1 : 1 ≤ c.day) (hd2 : c.day ≤ daysInMonth c.year c.month)
    (hh : c.hour ≤ 23) (hmi : c.minute ≤ 59) (hs : c.second ≤ 59)
    (hms : c.millis ≤ 999) (hoh : oh ≤ 23) (hom : om ≤ 59)
    (hoff : 0 < oh + om)
    (hbad : parseDateTimeChars s.data = none) :
    (mapValue .datetime (.num e) = .str (isoStringOfEpoch e) ∧
      isCanonicalDT (isoStringOfEpoch e) = true) ∧
    (mapValue .datetime (.bigint e) = .str (isoStringOfEpoch e)) ∧
    (mapValue .datetime (.text (engineNativeString c)) =
        .str (formatComps ⟨c.year, c.month, c.day, c.hour, c.minute, c.second, 0⟩) ∧
      isCanonicalDT (formatComps ⟨c.year, c.month, c.day, c.hour, c.minute, c.second, 0⟩) = true) ∧
    (mapValue .datetime (.text (isoNoOffsetString c)) =
        .str (formatComps ⟨c.year, c.month, c.day, c.hour, c.minute, c.second, 0⟩)) ∧
    (mapValue .datetime (.text (formatComps c)) = .str (formatComps c)) ∧
    (mapValue .datetime (.text (isoOffsetString c plus 0 0)) = .str (formatComps c)) ∧
    (mapValue .datetime (.text (isoOffsetString c plus oh om)) =
        .str (isoStringOfEpoch (epochOfComps c - offsetMinutesOf plus oh om * 60000)) ∧
      isCanonicalDT (isoStringOfEpoch (epochOfComps c - offsetMinutesOf plus oh om * 60000)) = true) ∧
    (mapValue .datetime (.text s) = .str s) ∧
    (mapValue .datetime .null = .null) := by
  have hparse1 := parse_engineNative c hy hy2 hmo1 hmo2 hd1 hd2 hh hmi hs
  have hparse2 := parse_isoNoOffset c hy hy2 hmo1 hmo2 hd1 hd2 hh hmi hs
  have hparse3 := parse_isoZ c hy hy2 hmo1 hmo2 hd1 hd2 hh hmi hs hms
  have hparse4 := parse_isoOffset c plus 0 0 hy hy2 hmo1 hmo2 hd1 hd2 hh hmi hs hms
    (by omega) (by omega)
  have hparse5 := parse_isoOffset c plus oh om hy hy2 hmo1 hmo2 hd1 hd2 hh hmi hs hms
    hoh hom
  have hz : offsetMinutesOf plus 0 0 = 0 := by cases plus <;> simp [offsetMinutesOf]
  have hnz : offsetMinutesOf plus oh om ≠ 0 := by
    cases plus <;> simp [offsetMinutesOf] <;> omega
  refine ⟨⟨rfl, isCanonicalDT_formatComps _⟩, rfl, ⟨?_, isCanonicalDT_formatComps _⟩,
    ?_, ?_, ?_, ⟨?_, isCanonicalDT_formatComps _⟩, ?_, rfl⟩
  · simp [mapValue, convertDateTime, canonicalizeDateTimeString,
      engineNativeString, hparse1]
  · simp [mapValue, convertDateTime, canonicalizeDateTimeString,
      isoNoOffsetString, hparse2]
  · simp [mapValue, convertDateTime, canonicalizeDateTimeString,
      formatComps, hparse3]
  · simp [mapValue, convertDateTime, canonicalizeDateTimeString,
      isoOffsetString, hparse4, hz]
  · simp [mapValue, convertDateTime, canonicalizeDateTimeString,
      isoOffsetString, hparse5, hnz]
  · simp [mapValue, convertDateTime, canonicalizeDateTimeString, hbad]

/-- Witness for C3 at the components 2025-08-20 14:42:26.556, the epoch
1640995200000, the offset -02:30, and an unparseable string. -/
theorem datetime_marshals_canonical_witness :
    ((0 : Int) ≤ 2025 ∧ (2025 : Int) ≤ 9999 ∧ 1 ≤ 8 ∧ 8 ≤ 12 ∧ 1 ≤ 20 ∧
      20 ≤ daysInMonth 2025 8 ∧ 14 ≤ 23 ∧ 42 ≤ 59 ∧ 26 ≤ 59 ∧ 556 ≤ 999 ∧
      2 ≤ 23 ∧ 30 ≤ 59 ∧ 0 < 2 + 30 ∧
      parseDateTimeChars "not-a-date".data = none) ∧
    ((mapValue .datetime (.num 1640995200000) = .str (isoStringOfEpoch 1640995200000) ∧
      isCanonicalDT (isoStringOfEpoch 1640995200000) = true) ∧
    (mapValue .datetime (.bigint 1640995200000) = .str (isoStringOfEpoch 1640995200000)) ∧
    (mapValue .datetime (.text (engineNativeString ⟨2025, 8, 20, 14, 42, 26, 556⟩)) =
        .str (formatComps ⟨2025, 8, 20, 14, 42, 26, 0⟩) ∧
      isCanonicalDT (formatComps ⟨2025, 8, 20, 14, 42, 26, 0⟩) = true) ∧
    (mapValue .datetime (.text (isoNoOffsetString ⟨2025, 8, 20, 14, 42, 26, 556⟩)) =
        .str (formatComps ⟨2025, 8, 20, 14, 42, 26, 0⟩)) ∧
    (mapValue .datetime (.text (formatComps ⟨2025, 8, 20, 14, 42, 26, 556⟩)) =
        .str (formatComps ⟨2025, 8, 20, 14, 42, 26, 556⟩)) ∧
    (mapValue .datetime (.text (isoOffsetString ⟨2025, 8, 20, 14, 42, 26, 556⟩ false 0 0)) =
        .str (formatComps ⟨2025, 8, 20, 14, 42, 26, 556⟩)) ∧
    (mapValue .datetime (.text (isoOffsetString ⟨2025, 8, 20, 14, 42, 26, 556⟩ false 2 30)) =
        .str (isoStringOfEpoch (epochOfComps ⟨2025, 8, 20, 14, 42, 26, 556⟩ -
          offsetMinutesOf false 2 30 * 60000)) ∧
      isCanonicalDT (isoStringOfEpoch (epochOfComps ⟨2025, 8, 20, 14, 42, 26, 556⟩ -
          offsetMinutesOf false 2 30 * 60000)) = true) ∧
    (mapValue .datetime (.text "not-a-date") = .str "not-a-date") ∧
    (mapValue .datetime .null = .null)) :=
  ⟨⟨by decide, by decide, by decide, by decide, by decide, by decide, by decide,
    by decide, by decide, by decide, by decide, by decide, by decide, by decide⟩,
    datetime_marshals_canonical ⟨2025, 8, 20, 14, 42, 26, 556⟩ 1640995200000
      false 2 30 "not-a-date" (by decide) (by decide) (by decide) (by decide)
      (by decide) (by decide) (by decide) (by decide) (by decide) (by decide)
      (by decide) (by decide) (by decide) (by decide)⟩

/-- C4: a 64-bit integer value in a column whose logical type is not
DateTime is marshalled by mapValue to its decimal-digit string, and that
string reads back to exactly the same integer (losslessness), including
when the column type is Int64. -/
theorem bigint_marshals_to_lossless_decimal (i : Int) (t : ColumnType)
    (ht : t ≠ .datetime) :
    mapValue t (.bigint i) = .str (decimalString i) ∧
    readDecimal (decimalString i) = some i := by
  constructor
  · cases t <;> simp_all [mapValue]
  · by_cases hneg : i < 0
    · rw [decimalString, if_pos hneg]
      have hne : natDigits i.natAbs ≠ [] := natDigitsFuel_ne_nil i.natAbs i.natAbs
      have hread : readNatAux (natDigits i.natAbs) 0 = some i.natAbs :=
        readNatAux_natDigits _
      have habs : ((i.natAbs : Int)) = -i := Int.ofNat_natAbs_of_nonpos (by omega)
      simp [readDecimal, hne, hread, habs]
    · rw [decimalString, if_neg hneg]
      obtain ⟨d, l, hdl⟩ := natDigitsFuel_head i.natAbs i.natAbs
      have hdl' : natDigits i.natAbs = digitChar d :: l := hdl
      have hread : readNatAux (digitChar d :: l) 0 = some i.natAbs := by
        rw [← hdl']
        exact readNatAux_natDigits _
      have habs : ((i.natAbs : Int)) = i := Int.natAbs_of_nonneg (by omega)
      simp [readDecimal, hdl', digitChar_ne_dash d, hread, habs]

/-- Witness for C4 at an Int64 column and a magnitude beyond 2^53. -/
theorem bigint_marshals_to_lossless_decimal_witness :
    (ColumnType.int64 ≠ ColumnType.datetime) ∧
    (mapValue .int64 (.bigint 9007199254740993) =
      .str (decimalString 9007199254740993) ∧
    readDecimal (decimalString 9007199254740993) = some 9007199254740993) :=
  ⟨by decide, bigint_marshals_to_lossless_decimal 9007199254740993 .int64 (by decide)⟩

/-- C5: on a transaction session whose state is committed or rolled back,
both queryRaw and executeRaw fail with a structured
TransactionAlreadyClosed error, issue nothing to the engine, and never
silently ignore the call. -/
theorem closed_session_rejects_queries (t : Tx) (eng : Engine) (sql : String)
    (res : Except String BunResultSet)
    (h : t.state = .committed ∨ t.state = .rolledBack) :
    t.queryRaw sql res =
      ⟨t, [], 0, .error (.transactionAlreadyClosed "Cannot execute query on a closed transaction.")⟩ ∧
    t.executeRaw eng sql =
      ⟨t, [], 0, .error (.transactionAlreadyClosed "Cannot execute query on a closed transaction.")⟩ := by
  have hne : t.state ≠ .active := by rcases h with h | h <;> simp [h]
  constructor
  · simp [Tx.queryRaw, hne]
  · simp [Tx.executeRaw, hne]

/-- Witness for C5 on a concrete committed session. -/
theorem closed_session_rejects_queries_witness :
    ((Tx.mk .committed).state = .committed ∨ (Tx.mk .committed).state = .rolledBack) ∧
    ((Tx.mk .committed).queryRaw "SELECT 1" (.ok ⟨[], [], []⟩) =
      ⟨⟨.committed⟩, [], 0, .error (.transactionAlreadyClosed "Cannot execute query on a closed transaction.")⟩ ∧
    (Tx.mk .committed).executeRaw (fun _ => .ok 0) "SELECT 1" =
      ⟨⟨.committed⟩, [], 0, .error (.transactionAlreadyClosed "Cannot execute query on a closed transaction.")⟩) :=
  ⟨Or.inl rfl,
    closed_session_rejects_queries ⟨.committed⟩ (fun _ => .ok 0) "SELECT 1"
      (.ok ⟨[], [], []⟩) (Or.inl rfl)⟩

/-- C6: commit and rollback on a session not in the active state resolve
successfully as no-ops with no engine statement and no lock interaction;
in particular a second commit after commit, a rollback after commit, and
repeated rollbacks all resolve successfully. -/
theorem closed_session_noop_commit_rollback (t u : Tx) (eng eng2 : Engine)
    (h : t.state ≠ .active) (hu : u.state = .active) :
    t.commit eng = ⟨t, [], 0, .ok ()⟩ ∧
    t.rollback eng = ⟨t, [], 0, .ok ()⟩ ∧
    (u.commit eng).tx.commit eng2 = ⟨(u.commit eng).tx, [], 0, .ok ()⟩ ∧
    (u.commit eng).tx.rollback eng2 = ⟨(u.commit eng).tx, [], 0, .ok ()⟩ ∧
    (u.rollback eng).tx.rollback eng2 = ⟨(u.rollback eng).tx, [], 0, .ok ()⟩ := by
  refine ⟨by simp [Tx.commit, h], by simp [Tx.rollback, h], ?_, ?_, ?_⟩
  · cases heng : eng "COMMIT" <;> simp [Tx.commit, hu, heng]
  · cases heng : eng "COMMIT" <;> simp [Tx.commit, Tx.rollback, hu, heng]
  · cases heng : eng "ROLLBACK" <;> simp [Tx.rollback, hu, heng]

/-- Witness for C6 on concrete closed and active sessions. -/
theorem closed_session_noop_commit_rollback_witness :
    ((Tx.mk .rolledBack).state ≠ .active ∧ (Tx.mk .active).state = .active) ∧
    ((Tx.mk .rolledBack).commit (fun _ => .ok 0) = ⟨⟨.rolledBack⟩, [], 0, .ok ()⟩ ∧
    (Tx.mk .rolledBack).rollback (fun _ => .ok 0) = ⟨⟨.rolledBack⟩, [], 0, .ok ()⟩ ∧
    ((Tx.mk .active).commit (fun _ => .ok 0)).tx.commit (fun _ => .ok 0) =
      ⟨((Tx.mk .active).commit (fun _ => .ok 0)).tx, [], 0, .ok ()⟩ ∧
    ((Tx.mk .active).commit (fun _ => .ok 0)).tx.rollback (fun _ => .ok 0) =
      ⟨((Tx.mk .active).commit (fun _ => .ok 0)).tx, [], 0, .ok ()⟩ ∧
    ((Tx.mk .active).rollback (fun _ => .ok 0)).tx.rollback (fun _ => .ok 0) =
      ⟨((Tx.mk .active).rollback (fun _ => .ok 0)).tx, [], 0, .ok ()⟩) :=
  ⟨⟨by simp, rfl⟩,
    closed_session_noop_commit_rollback ⟨.rolledBack⟩ ⟨.active⟩
      (fun _ => .ok 0) (fun _ => .ok 0) (by simp) rfl⟩

/-- C7: commit on an active session issues native COMMIT once and releases
the lock on both outcomes; on native success the session becomes
committed with a successful result, and on native failure it becomes
rolled back with the translated error surfaced. -/
theorem active_commit_behaviour (t : Tx) (eng : Engine) (h : t.state = .active) :
    (t.commit eng).issued = ["COMMIT"] ∧
    (t.commit eng).unlocks = 1 ∧
    (t.commit eng).tx.state =
      (if (eng "COMMIT").isOk then .committed else .rolledBack) ∧
    (t.commit eng).out =
      (((eng "COMMIT").map fun _ => ()).mapError convertDriverError) := by
  cases heng : eng "COMMIT" <;>
    simp [Tx.commit, h, heng, Except.mapError, Except.map, Except.isOk, Except.toBool]

/-- Witness for C7 on a concrete active session with a failing engine. -/
theorem active_commit_behaviour_witness :
    ((Tx.mk .active).state = .active) ∧
    (((Tx.mk .active).commit (fun _ => .error "database is locked")).issued = ["COMMIT"] ∧
    ((Tx.mk .active).commit (fun _ => .error "database is locked")).unlocks = 1 ∧
    ((Tx.mk .active).commit (fun _ => .error "database is locked")).tx.state =
      (if ((fun (_ : String) => (Except.error "database is locked" : Except String Nat)) "COMMIT").isOk
        then .committed else .rolledBack) ∧
    ((Tx.mk .active).commit (fun _ => .error "database is locked")).out =
      ((((fun (_ : String) => (Except.error "database is locked" : Except String Nat)) "COMMIT").map
        fun _ => ()).mapError convertDriverError)) :=
  ⟨rfl, active_commit_behaviour ⟨.active⟩ (fun _ => .error "database is locked") rfl⟩

/-- C8: a raw COMMIT or ROLLBACK statement submitted through executeRaw on
an active session is redirected to the commit or rollback method, sends
exactly the single corresponding native statement rather than two, and
resolves with 0 when the native statement succeeds. -/
theorem execute_raw_intercepts_commit_rollback (t : Tx) (eng : Engine)
    (sqlC sqlR : String) (h : t.state = .active)
    (hc : normalizeSql sqlC = "COMMIT".data)
    (hr : normalizeSql sqlR = "ROLLBACK".data) :
    (t.executeRaw eng sqlC =
      ⟨(t.commit eng).tx, (t.commit eng).issued, (t.commit eng).unlocks,
        (t.commit eng).out.map fun _ => 0⟩ ∧
    (t.executeRaw eng sqlC).issued = ["COMMIT"] ∧
    ((eng "COMMIT").isOk = true → (t.executeRaw eng sqlC).out = .ok 0)) ∧
    (t.executeRaw eng sqlR =
      ⟨(t.rollback eng).tx, (t.rollback eng).issued, (t.rollback eng).unlocks,
        (t.rollback eng).out.map fun _ => 0⟩ ∧
    (t.executeRaw eng sqlR).issued = ["ROLLBACK"] ∧
    ((eng "ROLLBACK").isOk = true → (t.executeRaw eng sqlR).out = .ok 0)) := by
  have hcr : normalizeSql sqlR ≠ "COMMIT".data := by
    rw [hr]; intro hfalse; simp at hfalse
  constructor
  · refine ⟨by simp [Tx.executeRaw, h, hc], ?_, ?_⟩
    · cases heng : eng "COMMIT" <;> simp [Tx.executeRaw, Tx.commit, h, hc, heng]
    · intro hok
      cases heng : eng "COMMIT" with
      | ok n => simp [Tx.executeRaw, Tx.commit, h, hc, heng, Except.map]
      | error e => rw [heng] at hok; simp [Except.isOk, Except.toBool] at hok
  · refine ⟨by simp [Tx.executeRaw, h, hcr, hr], ?_, ?_⟩
    · cases heng : eng "ROLLBACK" <;>
        simp [Tx.executeRaw, Tx.rollback, h, hcr, hr, heng]
    · intro hok
      cases heng : eng "ROLLBACK" with
      | ok n => simp [Tx.executeRaw, Tx.rollback, h, hcr, hr, heng, Except.map]
      | error e => rw [heng] at hok; simp [Except.isOk, Except.toBool] at hok

/-- Witness for C8 with concrete mixed-case raw statements. -/
theorem execute_raw_intercepts_commit_rollback_witness :
    ((Tx.mk .active).state = .active ∧
      normalizeSql " commit " = "COMMIT".data ∧
      normalizeSql "Rollback" = "ROLLBACK".data) ∧
    (((Tx.mk .active).executeRaw (fun _ => .ok 0) " commit " =
      ⟨((Tx.mk .active).commit (fun _ => .ok 0)).tx,
        ((Tx.mk .active).commit (fun _ => .ok 0)).issued,
        ((Tx.mk .active).commit (fun _ => .ok 0)).unlocks,
        ((Tx.mk .active).commit (fun _ => .ok 0)).out.map fun _ => 0⟩ ∧
    ((Tx.mk .active).executeRaw (fun _ => .ok 0) " commit ").issued = ["COMMIT"] ∧
    (((fun (_ : String) => (Except.ok 0 : Except String Nat)) "COMMIT").isOk = true →
      ((Tx.mk .active).executeRaw (fun _ => .ok 0) " commit ").out = .ok 0)) ∧
    ((Tx.mk .active).executeRaw (fun _ => .ok 0) "Rollback" =
      ⟨((Tx.mk .active).rollback (fun _ => .ok 0)).tx,
        ((Tx.mk .active).rollback (fun _ => .ok 0)).issued,
        ((Tx.mk .active).rollback (fun _ => .ok 0)).unlocks,
        ((Tx.mk .active).rollback (fun _ => .ok 0)).out.map fun _ => 0⟩ ∧
    ((Tx.mk .active).executeRaw (fun _ => .ok 0) "Rollback").issued = ["ROLLBACK"] ∧
    (((fun (_ : String) => (Except.ok 0 : Except String Nat)) "ROLLBACK").isOk = true →
      ((Tx.mk .active).executeRaw (fun _ => .ok 0) "Rollback").out = .ok 0))) :=
  ⟨⟨rfl, by decide, by decide⟩,
    execute_raw_intercepts_commit_rollback ⟨.active⟩ (fun _ => .ok 0)
      " commit " "Rollback" rfl (by decide) (by decide)⟩

/-- C9 counterexample: when native BEGIN fails, startTransaction has in
fact acquired the connection lock (and then released it), refuting the
claim that at begin-time failure the lock was never acquired. -/
theorem begin_failure_acquires_lock_counterexample :
    (startTransaction none (fun _ => .error "disk I/O error")).out.isOk = false ∧
    (startTransaction none (fun _ => .error "disk I/O error")).acquired = 1 := by
  constructor <;> rfl

/-- C9 (amended): the lock is released on every exit path of commit and
rollback from the active state, success or failure; at begin-time failure
the lock is not left held — every acquisition during a failing
startTransaction is matched by a release before the error surfaces — so a
transaction context is never abandoned while holding the lock. -/
theorem lock_release_on_every_exit (t : Tx) (eng engB : Engine)
    (iso : Option String) (h : t.state = .active) :
    (t.commit eng).unlocks = 1 ∧
    (t.rollback eng).unlocks = 1 ∧
    ((startTransaction iso engB).out.isOk = false →
      (startTransaction iso engB).released = (startTransaction iso engB).acquired) := by
  refine ⟨?_, ?_, ?_⟩
  · cases heng : eng "COMMIT" <;> simp [Tx.commit, h, heng]
  · cases heng : eng "ROLLBACK" <;> simp [Tx.rollback, h, heng]
  · intro hfail
    cases iso with
    | none =>
      cases hb : engB "BEGIN" with
      | ok n =>
        simp [startTransaction, startTransactionLocked, hb, Except.isOk,
          Except.toBool] at hfail
      | error e => simp [startTransaction, startTransactionLocked, hb]
    | some lvl =>
      by_cases hlvl : lvl = "SERIALIZABLE"
      · subst hlvl
        cases hb : engB "BEGIN" with
        | ok n =>
          simp [startTransaction, startTransactionLocked, hb, Except.isOk,
            Except.toBool] at hfail
        | error e => simp [startTransaction, startTransactionLocked, hb]
      · simp [startTransaction, hlvl]

/-- Witness for C9 (amended) on a concrete active session and failing
engines. -/
theorem lock_release_on_every_exit_witness :
    ((Tx.mk .active).state = .active) ∧
    (((Tx.mk .active).commit (fun _ => .error "busy")).unlocks = 1 ∧
    ((Tx.mk .active).rollback (fun _ => .error "busy")).unlocks = 1 ∧
    ((startTransaction none (fun _ => .error "busy")).out.isOk = false →
      (startTransaction none (fun _ => .error "busy")).released =
        (startTransaction none (fun _ => .error "busy")).acquired)) :=
  ⟨rfl, lock_release_on_every_exit ⟨.active⟩ (fun _ => .error "busy")
    (fun _ => .error "busy") none rfl⟩

/-- C10: rollback on an active session whose native ROLLBACK fails still
transitions the session to rolled back (never remaining active), still
releases the lock, and surfaces the translated error. -/
theorem active_rollback_behaviour (t : Tx) (eng : Engine) (h : t.state = .active) :
    (t.rollback eng).issued = ["ROLLBACK"] ∧
    (t.rollback eng).unlocks = 1 ∧
    (t.rollback eng).tx.state = .rolledBack ∧
    (t.rollback eng).out =
      (((eng "ROLLBACK").map fun _ => ()).mapError convertDriverError) := by
  cases heng : eng "ROLLBACK" <;>
    simp [Tx.rollback, h, heng, Except.mapError, Except.map]

/-- Witness for C10 on a concrete active session with a failing engine. -/
theorem active_rollback_behaviour_witness :
    ((Tx.mk .active).state = .active) ∧
    (((Tx.mk .active).rollback (fun _ => .error "constraint failed")).issued = ["ROLLBACK"] ∧
    ((Tx.mk .active).rollback (fun _ => .error "constraint failed")).unlocks = 1 ∧
    ((Tx.mk .active).rollback (fun _ => .error "constraint failed")).tx.state = .rolledBack ∧
    ((Tx.mk .active).rollback (fun _ => .error "constraint failed")).out =
      ((((fun (_ : String) => (Except.error "constraint failed" : Except String Nat)) "ROLLBACK").map
        fun _ => ()).mapError convertDriverError)) :=
  ⟨rfl, active_rollback_behaviour ⟨.active⟩ (fun _ => .error "constraint failed") rfl⟩

end BunSQLite
